import Mathlib

/-!
# User record manager: REST handlers (`crud-backend/server.js`) and client
state controller (`crud-frontend/src/App.jsx`)

The record store is a list of rows in storage order together with the
auto-increment counter.  Every `db.query` call may fail; the failure is an
explicit input of the handler that issues the call.  The server clock read by
`NOW()` is an explicit input as well.
-/

namespace Crud

/-! ## Record store -/

/-- Modelled from the spec: the `users` table (its `CREATE TABLE` is not part of
the sources).  `id` is the server-assigned integer key, the four text columns
may hold SQL `NULL`, `created_at` is assigned at creation and `updated_at` is
`NULL` until the first update. -/
structure User where
  id : Nat
  name : Option String
  email : Option String
  phone : Option String
  position : Option String
  created_at : Nat
  updated_at : Option Nat
  deriving DecidableEq, Repr

/-- The destructured request body `{ name, email, phone, position }`; a key
that is absent from the body binds as SQL `NULL`. -/
structure Fields where
  name : Option String
  email : Option String
  phone : Option String
  position : Option String
  deriving DecidableEq, Repr

/-- Modelled from the spec: the table state.  `rows` is the table in storage
order, `nextId` the auto-increment counter that assigns the next `id`. -/
structure Store where
  rows : List User
  nextId : Nat
  deriving DecidableEq, Repr

/-- Store well-formedness: `id` is a primary key and the auto-increment
counter lies above every stored id. -/
def Store.WF (s : Store) : Prop :=
  (s.rows.map User.id).Nodup ∧ ∀ u ∈ s.rows, u.id < s.nextId

instance (s : Store) : Decidable s.WF := by
  unfold Store.WF; infer_instance

/-- The error of one `db.query` call: `none` when the query succeeds,
`some msg` when it fails with `err.message = msg`. -/
abbrev Fault := Option String

/-- JSON payload of a response. -/
inductive Body where
  | users (l : List User)
  | user (u : User)
  | error (msg : String)
  deriving DecidableEq, Repr

/-- An HTTP response: status code and JSON body. -/
structure Response where
  status : Nat
  body : Body
  deriving DecidableEq, Repr

/-- The ordering `ORDER BY created_at DESC`: rows with equal `created_at` keep their
storage order. -/
def orderByCreatedAtDesc (rows : List User) : List User :=
  rows.insertionSort (fun a b => b.created_at ≤ a.created_at)

/-- Statement `INSERT INTO users (name, email, phone, position, created_at)
VALUES (?, ?, ?, ?, NOW())`. -/
def insertUser (f : Fields) (now : Nat) (s : Store) : Store :=
  { rows := s.rows ++ [{ id := s.nextId, name := f.name, email := f.email, phone := f.phone,
                         position := f.position, created_at := now, updated_at := none }],
    nextId := s.nextId + 1 }

/-- Statement `UPDATE users SET name = ?, email = ?, phone = ?, position = ?,
updated_at = NOW() WHERE id = ?`. -/
def updateUser (id : Nat) (f : Fields) (now : Nat) (s : Store) : Store :=
  { s with rows := s.rows.map (fun u =>
      if u.id = id then
        { u with name := f.name, email := f.email, phone := f.phone, position := f.position,
                 updated_at := some now }
      else u) }

/-- Statement `DELETE FROM users WHERE id = ?`. -/
def deleteUser (id : Nat) (s : Store) : Store :=
  { s with rows := s.rows.filter (fun u => u.id ≠ id) }

/-- Statement `SELECT * FROM users WHERE id = ?`. -/
def selectById (id : Nat) (s : Store) : List User :=
  s.rows.filter (fun u => u.id = id)

/-! ## API service -/

/-- Helper `getAllUsers`: runs the ordered select and hands either the error
or the rows to its callback. -/
def getAllUsers (q : Fault) (s : Store) : Except String (List User) :=
  match q with
  | some err => .error err
  | none => .ok (orderByCreatedAtDesc s.rows)

/-- Route `GET /api/users`. -/
def getUsers (q : Fault) (s : Store) : Response :=
  match getAllUsers q s with
  | .error msg => { status := 500, body := .error msg }
  | .ok users => { status := 200, body := .users users }

/-- Route `GET /api/users/:id`. -/
def getUser (id : Nat) (q : Fault) (s : Store) : Response :=
  match q with
  | some err => { status := 500, body := .error err }
  | none =>
    match selectById id s with
    | [] => { status := 404, body := .error "User not found" }
    | u :: _ => { status := 200, body := .user u }

/-- Route `POST /api/users`: insert, then answer with the refreshed list. -/
def postUsers (f : Fields) (now : Nat) (q1 q2 : Fault) (s : Store) : Store × Response :=
  match q1 with
  | some err => (s, { status := 500, body := .error err })
  | none =>
    let s1 := insertUser f now s
    match getAllUsers q2 s1 with
    | .error msg => (s1, { status := 500, body := .error msg })
    | .ok users => (s1, { status := 201, body := .users users })

/-- Route `PUT /api/users/:id`: update, then answer with the refreshed list. -/
def putUser (id : Nat) (f : Fields) (now : Nat) (q1 q2 : Fault) (s : Store) : Store × Response :=
  match q1 with
  | some err => (s, { status := 500, body := .error err })
  | none =>
    let s1 := updateUser id f now s
    match getAllUsers q2 s1 with
    | .error msg => (s1, { status := 500, body := .error msg })
    | .ok users => (s1, { status := 200, body := .users users })

/-- Route `DELETE /api/users/:id`: delete, then answer with the refreshed list. -/
def deleteUserRoute (id : Nat) (q1 q2 : Fault) (s : Store) : Store × Response :=
  match q1 with
  | some err => (s, { status := 500, body := .error err })
  | none =>
    let s1 := deleteUser id s
    match getAllUsers q2 s1 with
    | .error msg => (s1, { status := 500, body := .error msg })
    | .ok users => (s1, { status := 200, body := .users users })

/-- A mutating request of the API. -/
inductive Mutation where
  | create (f : Fields)
  | update (id : Nat) (f : Fields)
  | delete (id : Nat)
  deriving DecidableEq, Repr

/-- Routing of a mutating request to its handler. -/
def handleMutation (m : Mutation) (now : Nat) (q1 q2 : Fault) (s : Store) : Store × Response :=
  match m with
  | .create f => postUsers f now q1 q2 s
  | .update id f => putUser id f now q1 q2 s
  | .delete id => deleteUserRoute id q1 q2 s

/-! ## JavaScript values used by the client -/

/-- Characters removed by `String.prototype.trim`: the ECMAScript white space
and line terminator code points. -/
def isWhiteSpace (c : Char) : Bool :=
  let n := c.toNat
  n = 0x09 || n = 0x0A || n = 0x0B || n = 0x0C || n = 0x0D || n = 0x20 || n = 0xA0 ||
  n = 0x1680 || (0x2000 ≤ n && n ≤ 0x200A) || n = 0x2028 || n = 0x2029 || n = 0x202F ||
  n = 0x205F || n = 0x3000 || n = 0xFEFF

/-- JavaScript `s.trim()`. -/
def trim (s : String) : String :=
  ⟨((s.data.dropWhile isWhiteSpace).reverse.dropWhile isWhiteSpace).reverse⟩

/-- Simple lower-case mappings of Unicode 14.0 (`UnicodeData.txt`), as rows
`(first, last, stride, image of first)` sorted by `first`: the code points
`first, first + stride, ..., last` map to the image of `first` plus their
distance from `first`. -/
def lowerCaseTable : List (Nat × Nat × Nat × Nat) :=
  [(0x41, 0x5A, 1, 0x61), (0xC0, 0xD6, 1, 0xE0), (0xD8, 0xDE, 1, 0xF8), (0x100, 0x12E, 2, 0x101),
   (0x132, 0x136, 2, 0x133), (0x139, 0x147, 2, 0x13A), (0x14A, 0x176, 2, 0x14B),
   (0x178, 0x178, 1, 0xFF), (0x179, 0x17D, 2, 0x17A), (0x181, 0x181, 1, 0x253),
   (0x182, 0x184, 2, 0x183), (0x186, 0x186, 1, 0x254), (0x187, 0x187, 1, 0x188),
   (0x189, 0x18A, 1, 0x256), (0x18B, 0x18B, 1, 0x18C), (0x18E, 0x18E, 1, 0x1DD),
   (0x18F, 0x18F, 1, 0x259), (0x190, 0x190, 1, 0x25B), (0x191, 0x191, 1, 0x192),
   (0x193, 0x193, 1, 0x260), (0x194, 0x194, 1, 0x263), (0x196, 0x196, 1, 0x269),
   (0x197, 0x197, 1, 0x268), (0x198, 0x198, 1, 0x199), (0x19C, 0x19C, 1, 0x26F),
   (0x19D, 0x19D, 1, 0x272), (0x19F, 0x19F, 1, 0x275), (0x1A0, 0x1A4, 2, 0x1A1),
   (0x1A6, 0x1A6, 1, 0x280), (0x1A7, 0x1A7, 1, 0x1A8), (0x1A9, 0x1A9, 1, 0x283),
   (0x1AC, 0x1AC, 1, 0x1AD), (0x1AE, 0x1AE, 1, 0x288), (0x1AF, 0x1AF, 1, 0x1B0),
   (0x1B1, 0x1B2, 1, 0x28A), (0x1B3, 0x1B5, 2, 0x1B4), (0x1B7, 0x1B7, 1, 0x292),
   (0x1B8, 0x1B8, 1, 0x1B9), (0x1BC, 0x1BC, 1, 0x1BD), (0x1C4, 0x1C4, 1, 0x1C6),
   (0x1C5, 0x1C5, 1, 0x1C6), (0x1C7, 0x1C7, 1, 0x1C9), (0x1C8, 0x1C8, 1, 0x1C9),
   (0x1CA, 0x1CA, 1, 0x1CC), (0x1CB, 0x1DB, 2, 0x1CC), (0x1DE, 0x1EE, 2, 0x1DF),
   (0x1F1, 0x1F1, 1, 0x1F3), (0x1F2, 0x1F4, 2, 0x1F3), (0x1F6, 0x1F6, 1, 0x195),
   (0x1F7, 0x1F7, 1, 0x1BF), (0x1F8, 0x21E, 2, 0x1F9), (0x220, 0x220, 1, 0x19E),
   (0x222, 0x232, 2, 0x223), (0x23A, 0x23A, 1, 0x2C65), (0x23B, 0x23B, 1, 0x23C),
   (0x23D, 0x23D, 1, 0x19A), (0x23E, 0x23E, 1, 0x2C66), (0x241, 0x241, 1, 0x242),
   (0x243, 0x243, 1, 0x180), (0x244, 0x244, 1, 0x289), (0x245, 0x245, 1, 0x28C),
   (0x246, 0x24E, 2, 0x247), (0x370, 0x372, 2, 0x371), (0x376, 0x376, 1, 0x377),
   (0x37F, 0x37F, 1, 0x3F3), (0x386, 0x386, 1, 0x3AC), (0x388, 0x38A, 1, 0x3AD),
   (0x38C, 0x38C, 1, 0x3CC), (0x38E, 0x38F, 1, 0x3CD), (0x391, 0x3A1, 1, 0x3B1),
   (0x3A3, 0x3AB, 1, 0x3C3), (0x3CF, 0x3CF, 1, 0x3D7), (0x3D8, 0x3EE, 2, 0x3D9),
   (0x3F4, 0x3F4, 1, 0x3B8), (0x3F7, 0x3F7, 1, 0x3F8), (0x3F9, 0x3F9, 1, 0x3F2),
   (0x3FA, 0x3FA, 1, 0x3FB), (0x3FD, 0x3FF, 1, 0x37B), (0x400, 0x40F, 1, 0x450),
   (0x410, 0x42F, 1, 0x430), (0x460, 0x480, 2, 0x461), (0x48A, 0x4BE, 2, 0x48B),
   (0x4C0, 0x4C0, 1, 0x4CF), (0x4C1, 0x4CD, 2, 0x4C2), (0x4D0, 0x52E, 2, 0x4D1),
   (0x531, 0x556, 1, 0x561), (0x10A0, 0x10C5, 1, 0x2D00), (0x10C7, 0x10C7, 1, 0x2D27),
   (0x10CD, 0x10CD, 1, 0x2D2D), (0x13A0, 0x13EF, 1, 0xAB70), (0x13F0, 0x13F5, 1, 0x13F8),
   (0x1C90, 0x1CBA, 1, 0x10D0), (0x1CBD, 0x1CBF, 1, 0x10FD), (0x1E00, 0x1E94, 2, 0x1E01),
   (0x1E9E, 0x1E9E, 1, 0xDF), (0x1EA0, 0x1EFE, 2, 0x1EA1), (0x1F08, 0x1F0F, 1, 0x1F00),
   (0x1F18, 0x1F1D, 1, 0x1F10), (0x1F28, 0x1F2F, 1, 0x1F20), (0x1F38, 0x1F3F, 1, 0x1F30),
   (0x1F48, 0x1F4D, 1, 0x1F40), (0x1F59, 0x1F5F, 2, 0x1F51), (0x1F68, 0x1F6F, 1, 0x1F60),
   (0x1F88, 0x1F8F, 1, 0x1F80), (0x1F98, 0x1F9F, 1, 0x1F90), (0x1FA8, 0x1FAF, 1, 0x1FA0),
   (0x1FB8, 0x1FB9, 1, 0x1FB0), (0x1FBA, 0x1FBB, 1, 0x1F70), (0x1FBC, 0x1FBC, 1, 0x1FB3),
   (0x1FC8, 0x1FCB, 1, 0x1F72), (0x1FCC, 0x1FCC, 1, 0x1FC3), (0x1FD8, 0x1FD9, 1, 0x1FD0),
   (0x1FDA, 0x1FDB, 1, 0x1F76), (0x1FE8, 0x1FE9, 1, 0x1FE0), (0x1FEA, 0x1FEB, 1, 0x1F7A),
   (0x1FEC, 0x1FEC, 1, 0x1FE5), (0x1FF8, 0x1FF9, 1, 0x1F78), (0x1FFA, 0x1FFB, 1, 0x1F7C),
   (0x1FFC, 0x1FFC, 1, 0x1FF3), (0x2126, 0x2126, 1, 0x3C9), (0x212A, 0x212A, 1, 0x6B),
   (0x212B, 0x212B, 1, 0xE5), (0x2132, 0x2132, 1, 0x214E), (0x2160, 0x216F, 1, 0x2170),
   (0x2183, 0x2183, 1, 0x2184), (0x24B6, 0x24CF, 1, 0x24D0), (0x2C00, 0x2C2F, 1, 0x2C30),
   (0x2C60, 0x2C60, 1, 0x2C61), (0x2C62, 0x2C62, 1, 0x26B), (0x2C63, 0x2C63, 1, 0x1D7D),
   (0x2C64, 0x2C64, 1, 0x27D), (0x2C67, 0x2C6B, 2, 0x2C68), (0x2C6D, 0x2C6D, 1, 0x251),
   (0x2C6E, 0x2C6E, 1, 0x271), (0x2C6F, 0x2C6F, 1, 0x250), (0x2C70, 0x2C70, 1, 0x252),
   (0x2C72, 0x2C72, 1, 0x2C73), (0x2C75, 0x2C75, 1, 0x2C76), (0x2C7E, 0x2C7F, 1, 0x23F),
   (0x2C80, 0x2CE2, 2, 0x2C81), (0x2CEB, 0x2CED, 2, 0x2CEC), (0x2CF2, 0x2CF2, 1, 0x2CF3),
   (0xA640, 0xA66C, 2, 0xA641), (0xA680, 0xA69A, 2, 0xA681), (0xA722, 0xA72E, 2, 0xA723),
   (0xA732, 0xA76E, 2, 0xA733), (0xA779, 0xA77B, 2, 0xA77A), (0xA77D, 0xA77D, 1, 0x1D79),
   (0xA77E, 0xA786, 2, 0xA77F), (0xA78B, 0xA78B, 1, 0xA78C), (0xA78D, 0xA78D, 1, 0x265),
   (0xA790, 0xA792, 2, 0xA791), (0xA796, 0xA7A8, 2, 0xA797), (0xA7AA, 0xA7AA, 1, 0x266),
   (0xA7AB, 0xA7AB, 1, 0x25C), (0xA7AC, 0xA7AC, 1, 0x261), (0xA7AD, 0xA7AD, 1, 0x26C),
   (0xA7AE, 0xA7AE, 1, 0x26A), (0xA7B0, 0xA7B0, 1, 0x29E), (0xA7B1, 0xA7B1, 1, 0x287),
   (0xA7B2, 0xA7B2, 1, 0x29D), (0xA7B3, 0xA7B3, 1, 0xAB53), (0xA7B4, 0xA7C2, 2, 0xA7B5),
   (0xA7C4, 0xA7C4, 1, 0xA794), (0xA7C5, 0xA7C5, 1, 0x282), (0xA7C6, 0xA7C6, 1, 0x1D8E),
   (0xA7C7, 0xA7C9, 2, 0xA7C8), (0xA7D0, 0xA7D0, 1, 0xA7D1), (0xA7D6, 0xA7D8, 2, 0xA7D7),
   (0xA7F5, 0xA7F5, 1, 0xA7F6), (0xFF21, 0xFF3A, 1, 0xFF41), (0x10400, 0x10427, 1, 0x10428),
   (0x104B0, 0x104D3, 1, 0x104D8), (0x10570, 0x1057A, 1, 0x10597),
   (0x1057C, 0x1058A, 1, 0x105A3), (0x1058C, 0x10592, 1, 0x105B3),
   (0x10594, 0x10595, 1, 0x105BB), (0x10C80, 0x10CB2, 1, 0x10CC0),
   (0x118A0, 0x118BF, 1, 0x118C0), (0x16E40, 0x16E5F, 1, 0x16E60),
   (0x1E900, 0x1E921, 1, 0x1E922)]

/-- Code point ranges `(first, last)` with the `Case_Ignorable` property
(Unicode 14.0), sorted. -/
def caseIgnorableTable : List (Nat × Nat) :=
  [(0x27, 0x27), (0x2E, 0x2E), (0x3A, 0x3A), (0x5E, 0x5E), (0x60, 0x60), (0xA8, 0xA8),
   (0xAD, 0xAD), (0xAF, 0xAF), (0xB4, 0xB4), (0xB7, 0xB8), (0x2B0, 0x36F), (0x374, 0x375),
   (0x37A, 0x37A), (0x384, 0x385), (0x387, 0x387), (0x483, 0x489), (0x559, 0x559),
   (0x55F, 0x55F), (0x591, 0x5BD), (0x5BF, 0x5BF), (0x5C1, 0x5C2), (0x5C4, 0x5C5),
   (0x5C7, 0x5C7), (0x5F4, 0x5F4), (0x600, 0x605), (0x610, 0x61A), (0x61C, 0x61C),
   (0x640, 0x640), (0x64B, 0x65F), (0x670, 0x670), (0x6D6, 0x6DD), (0x6DF, 0x6E8),
   (0x6EA, 0x6ED), (0x70F, 0x70F), (0x711, 0x711), (0x730, 0x74A), (0x7A6, 0x7B0),
   (0x7EB, 0x7F5), (0x7FA, 0x7FA), (0x7FD, 0x7FD), (0x816, 0x82D), (0x859, 0x85B),
   (0x888, 0x888), (0x890, 0x891), (0x898, 0x89F), (0x8C9, 0x902), (0x93A, 0x93A),
   (0x93C, 0x93C), (0x941, 0x948), (0x94D, 0x94D), (0x951, 0x957), (0x962, 0x963),
   (0x971, 0x971), (0x981, 0x981), (0x9BC, 0x9BC), (0x9C1, 0x9C4), (0x9CD, 0x9CD),
   (0x9E2, 0x9E3), (0x9FE, 0x9FE), (0xA01, 0xA02), (0xA3C, 0xA3C), (0xA41, 0xA42),
   (0xA47, 0xA48), (0xA4B, 0xA4D), (0xA51, 0xA51), (0xA70, 0xA71), (0xA75, 0xA75),
   (0xA81, 0xA82), (0xABC, 0xABC), (0xAC1, 0xAC5), (0xAC7, 0xAC8), (0xACD, 0xACD),
   (0xAE2, 0xAE3), (0xAFA, 0xAFF), (0xB01, 0xB01), (0xB3C, 0xB3C), (0xB3F, 0xB3F),
   (0xB41, 0xB44), (0xB4D, 0xB4D), (0xB55, 0xB56), (0xB62, 0xB63), (0xB82, 0xB82),
   (0xBC0, 0xBC0), (0xBCD, 0xBCD), (0xC00, 0xC00), (0xC04, 0xC04), (0xC3C, 0xC3C),
   (0xC3E, 0xC40), (0xC46, 0xC48), (0xC4A, 0xC4D), (0xC55, 0xC56), (0xC62, 0xC63),
   (0xC81, 0xC81), (0xCBC, 0xCBC), (0xCBF, 0xCBF), (0xCC6, 0xCC6), (0xCCC, 0xCCD),
   (0xCE2, 0xCE3), (0xD00, 0xD01), (0xD3B, 0xD3C), (0xD41, 0xD44), (0xD4D, 0xD4D),
   (0xD62, 0xD63), (0xD81, 0xD81), (0xDCA, 0xDCA), (0xDD2, 0xDD4), (0xDD6, 0xDD6),
   (0xE31, 0xE31), (0xE34, 0xE3A), (0xE46, 0xE4E), (0xEB1, 0xEB1), (0xEB4, 0xEBC),
   (0xEC6, 0xEC6), (0xEC8, 0xECD), (0xF18, 0xF19), (0xF35, 0xF35), (0xF37, 0xF37),
   (0xF39, 0xF39), (0xF71, 0xF7E), (0xF80, 0xF84), (0xF86, 0xF87), (0xF8D, 0xF97),
   (0xF99, 0xFBC), (0xFC6, 0xFC6), (0x102D, 0x1030), (0x1032, 0x1037), (0x1039, 0x103A),
   (0x103D, 0x103E), (0x1058, 0x1059), (0x105E, 0x1060), (0x1071, 0x1074), (0x1082, 0x1082),
   (0x1085, 0x1086), (0x108D, 0x108D), (0x109D, 0x109D), (0x10FC, 0x10FC), (0x135D, 0x135F),
   (0x1712, 0x1714), (0x1732, 0x1733), (0x1752, 0x1753), (0x1772, 0x1773), (0x17B4, 0x17B5),
   (0x17B7, 0x17BD), (0x17C6, 0x17C6), (0x17C9, 0x17D3), (0x17D7, 0x17D7), (0x17DD, 0x17DD),
   (0x180B, 0x180F), (0x1843, 0x1843), (0x1885, 0x1886), (0x18A9, 0x18A9), (0x1920, 0x1922),
   (0x1927, 0x1928), (0x1932, 0x1932), (0x1939, 0x193B), (0x1A17, 0x1A18), (0x1A1B, 0x1A1B),
   (0x1A56, 0x1A56), (0x1A58, 0x1A5E), (0x1A60, 0x1A60), (0x1A62, 0x1A62), (0x1A65, 0x1A6C),
   (0x1A73, 0x1A7C), (0x1A7F, 0x1A7F), (0x1AA7, 0x1AA7), (0x1AB0, 0x1ACE), (0x1B00, 0x1B03),
   (0x1B34, 0x1B34), (0x1B36, 0x1B3A), (0x1B3C, 0x1B3C), (0x1B42, 0x1B42), (0x1B6B, 0x1B73),
   (0x1B80, 0x1B81), (0x1BA2, 0x1BA5), (0x1BA8, 0x1BA9), (0x1BAB, 0x1BAD), (0x1BE6, 0x1BE6),
   (0x1BE8, 0x1BE9), (0x1BED, 0x1BED), (0x1BEF, 0x1BF1), (0x1C2C, 0x1C33), (0x1C36, 0x1C37),
   (0x1C78, 0x1C7D), (0x1CD0, 0x1CD2), (0x1CD4, 0x1CE0), (0x1CE2, 0x1CE8), (0x1CED, 0x1CED),
   (0x1CF4, 0x1CF4), (0x1CF8, 0x1CF9), (0x1D2C, 0x1D6A), (0x1D78, 0x1D78), (0x1D9B, 0x1DFF),
   (0x1FBD, 0x1FBD), (0x1FBF, 0x1FC1), (0x1FCD, 0x1FCF), (0x1FDD, 0x1FDF), (0x1FED, 0x1FEF),
   (0x1FFD, 0x1FFE), (0x200B, 0x200F), (0x2018, 0x2019), (0x2024, 0x2024), (0x2027, 0x2027),
   (0x202A, 0x202E), (0x2060, 0x2064), (0x2066, 0x206F), (0x2071, 0x2071), (0x207F, 0x207F),
   (0x2090, 0x209C), (0x20D0, 0x20F0), (0x2C7C, 0x2C7D), (0x2CEF, 0x2CF1), (0x2D6F, 0x2D6F),
   (0x2D7F, 0x2D7F), (0x2DE0, 0x2DFF), (0x2E2F, 0x2E2F), (0x3005, 0x3005), (0x302A, 0x302D),
   (0x3031, 0x3035), (0x303B, 0x303B), (0x3099, 0x309E), (0x30FC, 0x30FE), (0xA015, 0xA015),
   (0xA4F8, 0xA4FD), (0xA60C, 0xA60C), (0xA66F, 0xA672), (0xA674, 0xA67D), (0xA67F, 0xA67F),
   (0xA69C, 0xA69F), (0xA6F0, 0xA6F1), (0xA700, 0xA721), (0xA770, 0xA770), (0xA788, 0xA78A),
   (0xA7F2, 0xA7F4), (0xA7F8, 0xA7F9), (0xA802, 0xA802), (0xA806, 0xA806), (0xA80B, 0xA80B),
   (0xA825, 0xA826), (0xA82C, 0xA82C), (0xA8C4, 0xA8C5), (0xA8E0, 0xA8F1), (0xA8FF, 0xA8FF),
   (0xA926, 0xA92D), (0xA947, 0xA951), (0xA980, 0xA982), (0xA9B3, 0xA9B3), (0xA9B6, 0xA9B9),
   (0xA9BC, 0xA9BD), (0xA9CF, 0xA9CF), (0xA9E5, 0xA9E6), (0xAA29, 0xAA2E), (0xAA31, 0xAA32),
   (0xAA35, 0xAA36), (0xAA43, 0xAA43), (0xAA4C, 0xAA4C), (0xAA70, 0xAA70), (0xAA7C, 0xAA7C),
   (0xAAB0, 0xAAB0), (0xAAB2, 0xAAB4), (0xAAB7, 0xAAB8), (0xAABE, 0xAABF), (0xAAC1, 0xAAC1),
   (0xAADD, 0xAADD), (0xAAEC, 0xAAED), (0xAAF3, 0xAAF4), (0xAAF6, 0xAAF6), (0xAB5B, 0xAB5F),
   (0xAB69, 0xAB6B), (0xABE5, 0xABE5), (0xABE8, 0xABE8), (0xABED, 0xABED), (0xFB1E, 0xFB1E),
   (0xFBB2, 0xFBC2), (0xFE00, 0xFE0F), (0xFE13, 0xFE13), (0xFE20, 0xFE2F), (0xFE52, 0xFE52),
   (0xFE55, 0xFE55), (0xFEFF, 0xFEFF), (0xFF07, 0xFF07), (0xFF0E, 0xFF0E), (0xFF1A, 0xFF1A),
   (0xFF3E, 0xFF3E), (0xFF40, 0xFF40), (0xFF70, 0xFF70), (0xFF9E, 0xFF9F), (0xFFE3, 0xFFE3),
   (0xFFF9, 0xFFFB), (0x101FD, 0x101FD), (0x102E0, 0x102E0), (0x10376, 0x1037A),
   (0x10780, 0x10785), (0x10787, 0x107B0), (0x107B2, 0x107BA), (0x10A01, 0x10A03),
   (0x10A05, 0x10A06), (0x10A0C, 0x10A0F), (0x10A38, 0x10A3A), (0x10A3F, 0x10A3F),
   (0x10AE5, 0x10AE6), (0x10D24, 0x10D27), (0x10EAB, 0x10EAC), (0x10F46, 0x10F50),
   (0x10F82, 0x10F85), (0x11001, 0x11001), (0x11038, 0x11046), (0x11070, 0x11070),
   (0x11073, 0x11074), (0x1107F, 0x11081), (0x110B3, 0x110B6), (0x110B9, 0x110BA),
   (0x110BD, 0x110BD), (0x110C2, 0x110C2), (0x110CD, 0x110CD), (0x11100, 0x11102),
   (0x11127, 0x1112B), (0x1112D, 0x11134), (0x11173, 0x11173), (0x11180, 0x11181),
   (0x111B6, 0x111BE), (0x111C9, 0x111CC), (0x111CF, 0x111CF), (0x1122F, 0x11231),
   (0x11234, 0x11234), (0x11236, 0x11237), (0x1123E, 0x1123E), (0x112DF, 0x112DF),
   (0x112E3, 0x112EA), (0x11300, 0x11301), (0x1133B, 0x1133C), (0x11340, 0x11340),
   (0x11366, 0x1136C), (0x11370, 0x11374), (0x11438, 0x1143F), (0x11442, 0x11444),
   (0x11446, 0x11446), (0x1145E, 0x1145E), (0x114B3, 0x114B8), (0x114BA, 0x114BA),
   (0x114BF, 0x114C0), (0x114C2, 0x114C3), (0x115B2, 0x115B5), (0x115BC, 0x115BD),
   (0x115BF, 0x115C0), (0x115DC, 0x115DD), (0x11633, 0x1163A), (0x1163D, 0x1163D),
   (0x1163F, 0x11640), (0x116AB, 0x116AB), (0x116AD, 0x116AD), (0x116B0, 0x116B5),
   (0x116B7, 0x116B7), (0x1171D, 0x1171F), (0x11722, 0x11725), (0x11727, 0x1172B),
   (0x1182F, 0x11837), (0x11839, 0x1183A), (0x1193B, 0x1193C), (0x1193E, 0x1193E),
   (0x11943, 0x11943), (0x119D4, 0x119D7), (0x119DA, 0x119DB), (0x119E0, 0x119E0),
   (0x11A01, 0x11A0A), (0x11A33, 0x11A38), (0x11A3B, 0x11A3E), (0x11A47, 0x11A47),
   (0x11A51, 0x11A56), (0x11A59, 0x11A5B), (0x11A8A, 0x11A96), (0x11A98, 0x11A99),
   (0x11C30, 0x11C36), (0x11C38, 0x11C3D), (0x11C3F, 0x11C3F), (0x11C92, 0x11CA7),
   (0x11CAA, 0x11CB0), (0x11CB2, 0x11CB3), (0x11CB5, 0x11CB6), (0x11D31, 0x11D36),
   (0x11D3A, 0x11D3A), (0x11D3C, 0x11D3D), (0x11D3F, 0x11D45), (0x11D47, 0x11D47),
   (0x11D90, 0x11D91), (0x11D95, 0x11D95), (0x11D97, 0x11D97), (0x11EF3, 0x11EF4),
   (0x13430, 0x13438), (0x16AF0, 0x16AF4), (0x16B30, 0x16B36), (0x16B40, 0x16B43),
   (0x16F4F, 0x16F4F), (0x16F8F, 0x16F9F), (0x16FE0, 0x16FE1), (0x16FE3, 0x16FE4),
   (0x1AFF0, 0x1AFF3), (0x1AFF5, 0x1AFFB), (0x1AFFD, 0x1AFFE), (0x1BC9D, 0x1BC9E),
   (0x1BCA0, 0x1BCA3), (0x1CF00, 0x1CF2D), (0x1CF30, 0x1CF46), (0x1D167, 0x1D169),
   (0x1D173, 0x1D182), (0x1D185, 0x1D18B), (0x1D1AA, 0x1D1AD), (0x1D242, 0x1D244),
   (0x1DA00, 0x1DA36), (0x1DA3B, 0x1DA6C), (0x1DA75, 0x1DA75), (0x1DA84, 0x1DA84),
   (0x1DA9B, 0x1DA9F), (0x1DAA1, 0x1DAAF), (0x1E000, 0x1E006), (0x1E008, 0x1E018),
   (0x1E01B, 0x1E021), (0x1E023, 0x1E024), (0x1E026, 0x1E02A), (0x1E130, 0x1E13D),
   (0x1E2AE, 0x1E2AE), (0x1E2EC, 0x1E2EF), (0x1E8D0, 0x1E8D6), (0x1E944, 0x1E94B),
   (0x1F3FB, 0x1F3FF), (0xE0001, 0xE0001), (0xE0020, 0xE007F), (0xE0100, 0xE01EF)]

/-- Code point ranges `(first, last)` with the `Cased` property (Unicode 14.0),
sorted. -/
def casedTable : List (Nat × Nat) :=
  [(0x41, 0x5A), (0x61, 0x7A), (0xAA, 0xAA), (0xB5, 0xB5), (0xBA, 0xBA), (0xC0, 0xD6),
   (0xD8, 0xF6), (0xF8, 0x1BA), (0x1BC, 0x1BF), (0x1C4, 0x293), (0x295, 0x2B8), (0x2C0, 0x2C1),
   (0x2E0, 0x2E4), (0x345, 0x345), (0x370, 0x373), (0x376, 0x377), (0x37A, 0x37D),
   (0x37F, 0x37F), (0x386, 0x386), (0x388, 0x38A), (0x38C, 0x38C), (0x38E, 0x3A1),
   (0x3A3, 0x3F5), (0x3F7, 0x481), (0x48A, 0x52F), (0x531, 0x556), (0x560, 0x588),
   (0x10A0, 0x10C5), (0x10C7, 0x10C7), (0x10CD, 0x10CD), (0x10D0, 0x10FA), (0x10FD, 0x10FF),
   (0x13A0, 0x13F5), (0x13F8, 0x13FD), (0x1C80, 0x1C88), (0x1C90, 0x1CBA), (0x1CBD, 0x1CBF),
   (0x1D00, 0x1DBF), (0x1E00, 0x1F15), (0x1F18, 0x1F1D), (0x1F20, 0x1F45), (0x1F48, 0x1F4D),
   (0x1F50, 0x1F57), (0x1F59, 0x1F59), (0x1F5B, 0x1F5B), (0x1F5D, 0x1F5D), (0x1F5F, 0x1F7D),
   (0x1F80, 0x1FB4), (0x1FB6, 0x1FBC), (0x1FBE, 0x1FBE), (0x1FC2, 0x1FC4), (0x1FC6, 0x1FCC),
   (0x1FD0, 0x1FD3), (0x1FD6, 0x1FDB), (0x1FE0, 0x1FEC), (0x1FF2, 0x1FF4), (0x1FF6, 0x1FFC),
   (0x2071, 0x2071), (0x207F, 0x207F), (0x2090, 0x209C), (0x2102, 0x2102), (0x2107, 0x2107),
   (0x210A, 0x2113), (0x2115, 0x2115), (0x2119, 0x211D), (0x2124, 0x2124), (0x2126, 0x2126),
   (0x2128, 0x2128), (0x212A, 0x212D), (0x212F, 0x2134), (0x2139, 0x2139), (0x213C, 0x213F),
   (0x2145, 0x2149), (0x214E, 0x214E), (0x2160, 0x217F), (0x2183, 0x2184), (0x24B6, 0x24E9),
   (0x2C00, 0x2CE4), (0x2CEB, 0x2CEE), (0x2CF2, 0x2CF3), (0x2D00, 0x2D25), (0x2D27, 0x2D27),
   (0x2D2D, 0x2D2D), (0xA640, 0xA66D), (0xA680, 0xA69D), (0xA722, 0xA787), (0xA78B, 0xA78E),
   (0xA790, 0xA7CA), (0xA7D0, 0xA7D1), (0xA7D3, 0xA7D3), (0xA7D5, 0xA7D9), (0xA7F5, 0xA7F6),
   (0xA7F8, 0xA7FA), (0xAB30, 0xAB5A), (0xAB5C, 0xAB68), (0xAB70, 0xABBF), (0xFB00, 0xFB06),
   (0xFB13, 0xFB17), (0xFF21, 0xFF3A), (0xFF41, 0xFF5A), (0x10400, 0x1044F), (0x104B0, 0x104D3),
   (0x104D8, 0x104FB), (0x10570, 0x1057A), (0x1057C, 0x1058A), (0x1058C, 0x10592),
   (0x10594, 0x10595), (0x10597, 0x105A1), (0x105A3, 0x105B1), (0x105B3, 0x105B9),
   (0x105BB, 0x105BC), (0x10780, 0x10780), (0x10783, 0x10785), (0x10787, 0x107B0),
   (0x107B2, 0x107BA), (0x10C80, 0x10CB2), (0x10CC0, 0x10CF2), (0x118A0, 0x118DF),
   (0x16E40, 0x16E7F), (0x1D400, 0x1D454), (0x1D456, 0x1D49C), (0x1D49E, 0x1D49F),
   (0x1D4A2, 0x1D4A2), (0x1D4A5, 0x1D4A6), (0x1D4A9, 0x1D4AC), (0x1D4AE, 0x1D4B9),
   (0x1D4BB, 0x1D4BB), (0x1D4BD, 0x1D4C3), (0x1D4C5, 0x1D505), (0x1D507, 0x1D50A),
   (0x1D50D, 0x1D514), (0x1D516, 0x1D51C), (0x1D51E, 0x1D539), (0x1D53B, 0x1D53E),
   (0x1D540, 0x1D544), (0x1D546, 0x1D546), (0x1D54A, 0x1D550), (0x1D552, 0x1D6A5),
   (0x1D6A8, 0x1D6C0), (0x1D6C2, 0x1D6DA), (0x1D6DC, 0x1D6FA), (0x1D6FC, 0x1D714),
   (0x1D716, 0x1D734), (0x1D736, 0x1D74E), (0x1D750, 0x1D76E), (0x1D770, 0x1D788),
   (0x1D78A, 0x1D7A8), (0x1D7AA, 0x1D7C2), (0x1D7C4, 0x1D7CB), (0x1DF00, 0x1DF09),
   (0x1DF0B, 0x1DF1E), (0x1E900, 0x1E943), (0x1F130, 0x1F149), (0x1F150, 0x1F169),
   (0x1F170, 0x1F189)]

/-- Image of the code point `n` under a sorted table of lower-case mappings;
a code point without a row is its own image. -/
def lookupLower : List (Nat × Nat × Nat × Nat) → Nat → Nat
  | [], n => n
  | (lo, hi, stride, tgt) :: rest, n =>
    if n < lo then n
    else if n ≤ hi && (n - lo) % stride == 0 then tgt + (n - lo)
    else lookupLower rest n

/-- Membership of the code point `n` in a sorted table of ranges. -/
def inRanges : List (Nat × Nat) → Nat → Bool
  | [], _ => false
  | (lo, hi) :: rest, n =>
    if n < lo then false
    else if n ≤ hi then true
    else inRanges rest n

/-- Unicode property `Case_Ignorable`. -/
def isCaseIgnorable (c : Char) : Bool :=
  inRanges caseIgnorableTable c.toNat

/-- Unicode property `Cased`. -/
def isCased (c : Char) : Bool :=
  inRanges casedTable c.toNat

/-- Is the first character of `l` that is not case-ignorable a cased letter? -/
def nextIsCased (l : List Char) : Bool :=
  match l.dropWhile isCaseIgnorable with
  | [] => false
  | c :: _ => isCased c

/-- Lower-case image of one character that is not a capital sigma: U+0130
becomes `i` followed by U+0307 (`SpecialCasing.txt`), any other character its
simple mapping. -/
def lowerChar (c : Char) : List Char :=
  if c.toNat = 0x130 then [Char.ofNat 0x69, Char.ofNat 0x307]
  else [Char.ofNat (lookupLower lowerCaseTable c.toNat)]

/-- Lower-casing of a character list; `before` holds the characters already
passed, nearest first.  A capital sigma U+03A3 becomes the final sigma U+03C2
when a cased letter precedes it and none follows it (case-ignorable characters
skipped on both sides), and U+03C3 otherwise. -/
def lowerChars (before : List Char) : List Char → List Char
  | [] => []
  | c :: rest =>
    (if c.toNat = 0x3A3 then
        [if nextIsCased before && !nextIsCased rest then Char.ofNat 0x3C2 else Char.ofNat 0x3C3]
      else lowerChar c) ++ lowerChars (c :: before) rest

/-- JavaScript `s.toLowerCase()`: the locale-independent Unicode lower-case
conversion, with the Unicode 14.0 tables.  Strings are sequences of code
points; unpaired surrogates are not represented. -/
def toLowerCase (s : String) : String :=
  ⟨lowerChars [] s.data⟩

/-- Does the character list `s` begin with `t`? -/
def startsWith : List Char → List Char → Bool
  | _, [] => true
  | [], _ :: _ => false
  | c :: cs, d :: ds => c == d && startsWith cs ds

/-- Does `t` occur in `s` at some position? -/
def includesChars : List Char → List Char → Bool
  | [], t => startsWith [] t
  | c :: cs, t => startsWith (c :: cs) t || includesChars cs t

/-- JavaScript `s.includes(t)`. -/
def includes (s t : String) : Bool :=
  includesChars s.data t.data

/-- Truthiness of a string: every string but the empty one. -/
def truthyString (s : String) : Bool :=
  !s.data.isEmpty

/-- Truthiness of `editingId`, which is `null` or a number: `null` and `0`
are falsy. -/
def truthyId : Option Nat → Bool
  | none => false
  | some n => n != 0

/-! ## Client state controller -/

/-- The `formData` state. -/
structure FormData where
  name : String
  email : String
  phone : String
  position : String
  deriving DecidableEq, Repr

/-- The `notification` state `{ show, message, type }`. -/
structure Notification where
  show_ : Bool
  message : String
  type : String
  deriving DecidableEq, Repr

/-- The component state of `App`.  An entry of `users` is a row object or
`null`. -/
structure ClientState where
  users : List (Option User)
  formData : FormData
  editingId : Option Nat
  loading : Bool
  notification : Notification
  searchTerm : String
  deriving DecidableEq, Repr

/-- A request sent through `axios`. -/
inductive Request where
  | get
  | post (body : FormData)
  | put (id : Nat) (body : FormData)
  | delete (id : Nat)
  deriving DecidableEq, Repr

/-- What `axios` throws: `error.response?.status`, absent for a transport
error. -/
structure AxiosError where
  status : Option Nat
  deriving DecidableEq, Repr

/-- Outcome of an awaited request: the thrown error (any non-2xx status or
transport failure) or `response.data`. -/
abbrev Reply := Except AxiosError (List (Option User))

/-- The cleared form `{ name: '', email: '', phone: '', position: '' }`. -/
def emptyForm : FormData :=
  { name := "", email := "", phone := "", position := "" }

/-- Initial values of the `useState` hooks. -/
def initialState : ClientState :=
  { users := [], formData := emptyForm, editingId := none, loading := false,
    notification := { show_ := false, message := "", type := "" }, searchTerm := "" }

/-- Function `showNotification(message, type)`: the notification it displays (its
removal after three seconds is a separate event). -/
def showNotification (message : String) (type : String) : Notification :=
  { show_ := true, message := message, type := type }

/-- Handler `handleCancel`. -/
def handleCancel (st : ClientState) : ClientState :=
  { st with formData := emptyForm, editingId := none }

/-- JavaScript `v || ''` for a nullable string. -/
def orEmpty : Option String → String
  | none => ""
  | some s => s

/-- Handler `handleEdit(user)`. -/
def handleEdit (st : ClientState) (user : User) : ClientState :=
  { st with
    formData := { name := orEmpty user.name, email := orEmpty user.email,
                  phone := orEmpty user.phone, position := orEmpty user.position },
    editingId := some user.id }

/-- The validation test of `handleSubmit`:
`!formData.name.trim() || !formData.email.trim()`. -/
def formRejected (fd : FormData) : Bool :=
  !truthyString (trim fd.name) || !truthyString (trim fd.email)

/-- Handler `handleSubmit` up to its `await`: validation, `setLoading(true)` and the
request handed to `axios`, if any. -/
def handleSubmitStart (st : ClientState) : ClientState × Option Request :=
  if formRejected st.formData then
    ({ st with notification := showNotification "Name and email are required" "error" }, none)
  else
    ({ st with loading := true },
     some (match st.editingId with
           | some id => if truthyId (some id) then Request.put id st.formData
                        else Request.post st.formData
           | none => Request.post st.formData))

/-- Message chosen by the `catch` block of `handleSubmit`. -/
def submitErrorMessage (status : Option Nat) : String :=
  if status = some 400 then "Invalid data provided"
  else if status = some 409 then "Email already exists"
  else "Failed to save user"

/-- Handler `handleSubmit` after its `await`; `editingId` is the value the handler
closed over. -/
def handleSubmitDone (st : ClientState) (editingId : Option Nat) (reply : Reply) : ClientState :=
  let st1 :=
    match reply with
    | .ok data =>
      let st2 :=
        if truthyId editingId then
          { st with notification := showNotification "User updated successfully!" "success",
                    editingId := none }
        else
          { st with notification := showNotification "User created successfully!" "success" }
      { st2 with users := data, formData := emptyForm, searchTerm := "" }
    | .error e =>
      { st with notification := showNotification (submitErrorMessage e.status) "error" }
  { st1 with loading := false }

/-- Handler `handleSubmit`, run to completion against the network `axios`. -/
def handleSubmit (st : ClientState) (axios : Request → Reply) : ClientState :=
  match handleSubmitStart st with
  | (st1, none) => st1
  | (st1, some req) => handleSubmitDone st1 st.editingId (axios req)

/-- Handler `handleDelete(id, name)` up to its `await`; `confirmed` is the answer of
`window.confirm`. -/
def handleDeleteStart (st : ClientState) (id : Nat) (confirmed : Bool) :
    ClientState × Option Request :=
  if confirmed then ({ st with loading := true }, some (Request.delete id))
  else (st, none)

/-- Message chosen by the `catch` block of `handleDelete`. -/
def deleteErrorMessage (status : Option Nat) : String :=
  if status = some 404 then "User not found" else "Failed to delete user"

/-- Handler `handleDelete` after its `await`; `editingId` is the value the handler
closed over. -/
def handleDeleteDone (st : ClientState) (editingId : Option Nat) (id : Nat) (reply : Reply) :
    ClientState :=
  let st1 :=
    match reply with
    | .ok data =>
      let st2 := { st with notification := showNotification "User deleted successfully!" "success",
                           users := data, searchTerm := "" }
      if editingId = some id then handleCancel st2 else st2
    | .error e =>
      { st with notification := showNotification (deleteErrorMessage e.status) "error" }
  { st1 with loading := false }

/-- Handler `handleDelete`, run to completion against the network `axios`. -/
def handleDelete (st : ClientState) (id : Nat) (confirmed : Bool) (axios : Request → Reply) :
    ClientState :=
  match handleDeleteStart st id confirmed with
  | (st1, none) => st1
  | (st1, some req) => handleDeleteDone st1 st.editingId id (axios req)

/-- Function `fetchUsers` up to its `await`. -/
def fetchUsersStart (st : ClientState) : ClientState × Request :=
  ({ st with loading := true }, Request.get)

/-- Function `fetchUsers` after its `await`. -/
def fetchUsersDone (st : ClientState) (reply : Reply) : ClientState :=
  let st1 :=
    match reply with
    | .ok data => { st with users := data }
    | .error _ => { st with notification := showNotification "Failed to fetch users" "error" }
  { st1 with loading := false }

/-! ## Filter view -/

/-- One disjunct of the filter test:
`v && v.toLowerCase().includes(searchLower)`. -/
def fieldMatches (v : Option String) (searchLower : String) : Bool :=
  match v with
  | none => false
  | some s => truthyString s && includes (toLowerCase s) searchLower

/-- The callback given to `users.filter`. -/
def userMatches (searchTerm : String) (user : Option User) : Bool :=
  match user with
  | none => false
  | some u =>
    let searchLower := toLowerCase searchTerm
    fieldMatches u.name searchLower || fieldMatches u.email searchLower ||
      fieldMatches u.position searchLower || fieldMatches u.phone searchLower

/-- The memoised `filteredUsers`. -/
def filteredUsers (users : List (Option User)) (searchTerm : String) : List (Option User) :=
  users.filter (userMatches searchTerm)

/-! ## The component as a transition system -/

/-- A request that has been handed to `axios` and not yet settled, with the
`editingId` its handler closed over. -/
structure Pending where
  req : Request
  editingId : Option Nat
  deriving DecidableEq, Repr

/-- The mounted component: its state, whether the mount effect has run, and
the requests in flight. -/
structure App where
  ui : ClientState
  mounted : Bool
  inFlight : List Pending
  deriving DecidableEq, Repr

/-- What can happen to the component: the mount effect, the user acting on a
control, a notification timer firing, a request settling. -/
inductive Event where
  | mount
  | changeName (v : String)
  | changeEmail (v : String)
  | changePhone (v : String)
  | changePosition (v : String)
  | changeSearch (v : String)
  | submit
  | clickCancel
  | clickEdit (user : User)
  | clickDelete (user : User) (confirmed : Bool)
  | closeNotification
  | notificationTimeout
  | reply (i : Nat) (r : Reply)

/-- Create, update and delete requests are the mutating ones. -/
def isMutating : Request → Bool
  | .get => false
  | .post _ => true
  | .put _ _ => true
  | .delete _ => true

/-- The component before its mount effect has run. -/
def initialApp : App :=
  { ui := initialState, mounted := false, inFlight := [] }

/-- The notification value that hides the banner. -/
def hiddenNotification : Notification :=
  { show_ := false, message := "", type := "" }

/-- Are the controls carrying `disabled={loading}` usable? -/
def controlsEnabled (a : App) : Bool :=
  a.mounted && !a.ui.loading

/-- One event of the component.  `none` means the event cannot occur: the
control is disabled (`disabled={loading}`) or not rendered, the effect has
already run, or no such request is in flight. -/
def step (e : Event) (a : App) : Option App :=
  match e with
  | .mount =>
    if a.mounted then none
    else
      let (st, req) := fetchUsersStart a.ui
      some { ui := st, mounted := true,
             inFlight := a.inFlight ++ [{ req := req, editingId := a.ui.editingId }] }
  | .changeName v =>
    if controlsEnabled a then
      some { a with ui := { a.ui with formData := { a.ui.formData with name := v } } }
    else none
  | .changeEmail v =>
    if controlsEnabled a then
      some { a with ui := { a.ui with formData := { a.ui.formData with email := v } } }
    else none
  | .changePhone v =>
    if controlsEnabled a then
      some { a with ui := { a.ui with formData := { a.ui.formData with phone := v } } }
    else none
  | .changePosition v =>
    if controlsEnabled a then
      some { a with ui := { a.ui with formData := { a.ui.formData with position := v } } }
    else none
  | .changeSearch v =>
    if controlsEnabled a then some { a with ui := { a.ui with searchTerm := v } }
    else none
  | .submit =>
    if controlsEnabled a then
      match handleSubmitStart a.ui with
      | (st, none) => some { a with ui := st }
      | (st, some req) =>
        some { a with ui := st,
                      inFlight := a.inFlight ++ [{ req := req, editingId := a.ui.editingId }] }
    else none
  | .clickCancel =>
    if controlsEnabled a && truthyId a.ui.editingId then some { a with ui := handleCancel a.ui }
    else none
  | .clickEdit user =>
    if controlsEnabled a && (filteredUsers a.ui.users a.ui.searchTerm).contains (some user) then
      some { a with ui := handleEdit a.ui user }
    else none
  | .clickDelete user confirmed =>
    if controlsEnabled a && (filteredUsers a.ui.users a.ui.searchTerm).contains (some user) then
      match handleDeleteStart a.ui user.id confirmed with
      | (st, none) => some { a with ui := st }
      | (st, some req) =>
        some { a with ui := st,
                      inFlight := a.inFlight ++ [{ req := req, editingId := a.ui.editingId }] }
    else none
  | .closeNotification =>
    if a.mounted && a.ui.notification.show_ then
      some { a with ui := { a.ui with notification := hiddenNotification } }
    else none
  | .notificationTimeout =>
    if a.mounted then some { a with ui := { a.ui with notification := hiddenNotification } }
    else none
  | .reply i r =>
    match a.inFlight[i]? with
    | none => none
    | some p =>
      let ui1 :=
        match p.req with
        | .get => fetchUsersDone a.ui r
        | .post _ => handleSubmitDone a.ui p.editingId r
        | .put _ _ => handleSubmitDone a.ui p.editingId r
        | .delete id => handleDeleteDone a.ui p.editingId id r
      some { a with ui := ui1, inFlight := a.inFlight.eraseIdx i }

/-- Run a sequence of events; `none` if one of them cannot occur. -/
def run : List Event → App → Option App
  | [], a => some a
  | e :: es, a => (step e a).bind (run es)

/-- The invariant of the component: at most one request is in flight, and
while one is, `loading` is true; before the mount effect nothing is in
flight. -/
def Inv (a : App) : Prop :=
  a.inFlight.length ≤ 1 ∧ (a.inFlight ≠ [] → a.ui.loading = true)
    ∧ (a.mounted = false → a.inFlight = [])

/-! ## The filter as the specification words it -/

/-- Spec wording: `t` is a substring of `s`. -/
def IsSubstring (t s : String) : Prop :=
  ∃ p q : List Char, s.data = p ++ t.data ++ q

/-- Spec wording: the lower-cased term is a substring of the lower-cased value
of at least one of name, email, phone, position. -/
def specMatches (term : String) (u : User) : Prop :=
  ∃ v, (u.name = some v ∨ u.email = some v ∨ u.phone = some v ∨ u.position = some v)
    ∧ IsSubstring (toLowerCase term) (toLowerCase v)

/-! ## Example data -/

/-- The store holding one record, Bob, created at clock value 10. -/
def bobStore : Store :=
  { rows := [{ id := 1, name := some "Bob", email := some "bob@x.com", phone := none,
               position := none, created_at := 10, updated_at := none }],
    nextId := 2 }

/-- The field set `{name: "Ann", email: "ann@x.com"}`. -/
def annFields : Fields :=
  { name := some "Ann", email := some "ann@x.com", phone := none, position := none }

/-- The store holding one record that was last updated at clock value 7. -/
def carlStore : Store :=
  { rows := [{ id := 1, name := some "Carl", email := some "carl@x.com", phone := none,
               position := none, created_at := 3, updated_at := some 7 }],
    nextId := 2 }

/-- A client state whose form holds Ann's data, with no record being edited. -/
def annFormState : ClientState :=
  { initialState with
    formData := { name := "Ann", email := "ann@x.com", phone := "", position := "" },
    searchTerm := "bo" }

/-- Bob's row as the client receives it. -/
def bobRow : User :=
  { id := 1, name := some "Bob", email := some "bob@x.com", phone := none,
    position := none, created_at := 10, updated_at := none }

/-- A client state in which record 1 is being edited. -/
def editingBobState : ClientState :=
  handleEdit { initialState with users := [some bobRow] } bobRow

/-- Ann's row as the client receives it. -/
def annRow : User :=
  { id := 2, name := some "Ann", email := none, phone := none, position := none,
    created_at := 11, updated_at := none }

/-- A row whose name is written in capitals with a letter outside ASCII. -/
def aenneRow : User :=
  { id := 4, name := some "ÄNNE", email := none, phone := none, position := none,
    created_at := 13, updated_at := none }

/-- A row whose name, email, phone and position are all the empty string. -/
def blankRow : User :=
  { id := 3, name := some "", email := some "", phone := some "", position := some "",
    created_at := 12, updated_at := none }

/-- The events: mount, the initial fetch settles with Bob's record, the user
types Ann's name and email and submits the form. -/
def annSession : List Event :=
  [Event.mount, Event.reply 0 (.ok [some bobRow]), Event.changeName "Ann",
   Event.changeEmail "ann@x.com", Event.submit]

/-- The component after `annSession`: the create request is in flight. -/
def annSubmitted : App :=
  { ui := { users := [some bobRow],
            formData := { name := "Ann", email := "ann@x.com", phone := "", position := "" },
            editingId := none, loading := true,
            notification := { show_ := false, message := "", type := "" }, searchTerm := "" },
    mounted := true,
    inFlight := [{ req := Request.post { name := "Ann", email := "ann@x.com", phone := "",
                                         position := "" },
                   editingId := none }] }

/-! ## Facts about the ordered select -/

theorem orderByCreatedAtDesc_perm (rows : List User) :
    (orderByCreatedAtDesc rows).Perm rows :=
  List.perm_insertionSort _ rows

theorem orderByCreatedAtDesc_sorted (rows : List User) :
    (orderByCreatedAtDesc rows).Sorted (fun a b => b.created_at ≤ a.created_at) := by
  haveI : IsTotal User (fun a b => b.created_at ≤ a.created_at) :=
    ⟨fun a b => Nat.le_total b.created_at a.created_at⟩
  haveI : IsTrans User (fun a b => b.created_at ≤ a.created_at) :=
    ⟨fun _ _ _ h1 h2 => Nat.le_trans h2 h1⟩
  exact List.sorted_insertionSort _ rows

/-- C1: when both storage queries of a create, update or delete succeed, the
handler answers with a success status (201 for create, 200 otherwise) and its
body is exactly the body that `GET /api/users` gives on the store left by the
mutation; that list holds every stored row (a permutation of the table) in
descending `created_at` order. -/
theorem mutation_response_is_full_list (m : Mutation) (now : Nat) (s : Store) :
    (handleMutation m now none none s).2.body
        = (getUsers none (handleMutation m now none none s).1).body
      ∧ (handleMutation m now none none s).2.status
          = (match m with | .create _ => 201 | _ => 200)
      ∧ ∃ l, (handleMutation m now none none s).2.body = Body.users l
          ∧ l.Perm (handleMutation m now none none s).1.rows
          ∧ l.Sorted (fun a b => b.created_at ≤ a.created_at) := by
  cases m <;>
    simp [handleMutation, postUsers, putUser, deleteUserRoute, getUsers, getAllUsers,
      orderByCreatedAtDesc_perm, orderByCreatedAtDesc_sorted]

/-! ## Create -/

/-- In a list sorted by descending `created_at`, a row that is strictly newer
than all the others stands first. -/
theorem head_of_sorted_newest (l rows : List User) (new : User)
    (hperm : l.Perm (new :: rows))
    (hsorted : l.Sorted (fun a b => b.created_at ≤ a.created_at))
    (hnew : ∀ u ∈ rows, u.created_at < new.created_at) :
    l.head? = some new := by
  cases l with
  | nil => exact absurd hperm.length_eq (by simp)
  | cons x t =>
    simp only [List.head?_cons, Option.some.injEq]
    have hx : x ∈ new :: rows := hperm.subset (List.mem_cons_self _ _)
    rcases List.mem_cons.1 hx with hx | hx
    · exact hx
    · have hn : new ∈ x :: t := hperm.symm.subset (List.mem_cons_self _ _)
      rcases List.mem_cons.1 hn with hn | hn
      · exact hn.symm
      · have h1 := List.rel_of_sorted_cons hsorted new hn
        have h2 := hnew x hx
        omega

/-- C7 (amended): on a well-formed store a successful create answers 201 with a
list of length old+1 that is a permutation of the old rows plus one new row;
the new row carries the given fields, the clock value as `created_at` and an id
that no old row has; it is the first element of the (descending `created_at`)
list whenever the clock value is strictly later than every old `created_at`. -/
theorem create_adds_one_fresh_record (f : Fields) (now : Nat) (s : Store) (hwf : s.WF) :
    ∃ new l,
      postUsers f now none none s
          = ({ rows := s.rows ++ [new], nextId := s.nextId + 1 },
             { status := 201, body := Body.users l })
        ∧ new.id ∉ s.rows.map User.id
        ∧ new.name = f.name ∧ new.email = f.email ∧ new.phone = f.phone
        ∧ new.position = f.position ∧ new.created_at = now
        ∧ l.length = s.rows.length + 1
        ∧ l.Perm (new :: s.rows)
        ∧ l.Sorted (fun a b => b.created_at ≤ a.created_at)
        ∧ ((∀ u ∈ s.rows, u.created_at < now) → l.head? = some new) := by
  refine ⟨{ id := s.nextId, name := f.name, email := f.email, phone := f.phone,
            position := f.position, created_at := now, updated_at := none },
          orderByCreatedAtDesc (insertUser f now s).rows, rfl, ?_, rfl, rfl, rfl, rfl, rfl,
          ?_, ?_, orderByCreatedAtDesc_sorted _, ?_⟩
  · intro hmem
    rcases List.mem_map.1 hmem with ⟨u, hu, hid⟩
    have := hwf.2 u hu
    simp only at hid
    omega
  · rw [(orderByCreatedAtDesc_perm _).length_eq]
    simp [insertUser]
  · refine (orderByCreatedAtDesc_perm _).trans ?_
    simp only [insertUser]
    exact List.perm_append_singleton _ _
  · intro hnew
    refine head_of_sorted_newest _ s.rows _ ?_ (orderByCreatedAtDesc_sorted _) hnew
    refine (orderByCreatedAtDesc_perm _).trans ?_
    simp only [insertUser]
    exact List.perm_append_singleton _ _

/-- Witness of C7 (amended): creating Ann at clock value 11 in `bobStore`. -/
theorem create_adds_one_fresh_record_witness :
    bobStore.WF ∧ ∃ new l,
      postUsers annFields 11 none none bobStore
          = ({ rows := bobStore.rows ++ [new], nextId := bobStore.nextId + 1 },
             { status := 201, body := Body.users l })
        ∧ new.id ∉ bobStore.rows.map User.id
        ∧ new.name = annFields.name ∧ new.email = annFields.email
        ∧ new.phone = annFields.phone
        ∧ new.position = annFields.position ∧ new.created_at = 11
        ∧ l.length = bobStore.rows.length + 1
        ∧ l.Perm (new :: bobStore.rows)
        ∧ l.Sorted (fun a b => b.created_at ≤ a.created_at)
        ∧ ((∀ u ∈ bobStore.rows, u.created_at < 11) → l.head? = some new) :=
  ⟨by decide, create_adds_one_fresh_record annFields 11 bobStore (by decide)⟩

/-- C7 (counterexample): creating Ann while the clock still reads 10, the
`created_at` of the stored record Bob, succeeds with a two-element list whose
first element is Bob, not the new record; the same happens when the clock
reads 9, an earlier value than Bob's `created_at`. -/
theorem create_new_record_not_first :
    bobStore.WF ∧
    (postUsers annFields 10 none none bobStore).2
      = { status := 201,
          body := Body.users
            [{ id := 1, name := some "Bob", email := some "bob@x.com", phone := none,
               position := none, created_at := 10, updated_at := none },
             { id := 2, name := some "Ann", email := some "ann@x.com", phone := none,
               position := none, created_at := 10, updated_at := none }] } ∧
    (postUsers annFields 9 none none bobStore).2
      = { status := 201,
          body := Body.users
            [{ id := 1, name := some "Bob", email := some "bob@x.com", phone := none,
               position := none, created_at := 10, updated_at := none },
             { id := 2, name := some "Ann", email := some "ann@x.com", phone := none,
               position := none, created_at := 9, updated_at := none }] } := by
  refine ⟨by decide, ?_, ?_⟩ <;> decide

/-! ## Update -/

theorem selectById_updateUser (id : Nat) (f : Fields) (now : Nat) (rows : List User) (n : Nat) :
    selectById id (updateUser id f now { rows := rows, nextId := n })
      = (selectById id { rows := rows, nextId := n }).map (fun u =>
          { u with name := f.name, email := f.email, phone := f.phone, position := f.position,
                   updated_at := some now }) := by
  induction rows with
  | nil => rfl
  | cons u t ih =>
    simp only [selectById, updateUser, List.map_cons, List.filter_cons] at ih ⊢
    by_cases h : u.id = id
    · simp [h, ih]
    · simp [h, ih]

theorem updateUser_others (id : Nat) (f : Fields) (now : Nat) (rows : List User) (n : Nat) :
    (updateUser id f now { rows := rows, nextId := n }).rows.filter (fun u => u.id ≠ id)
      = rows.filter (fun u => u.id ≠ id) := by
  induction rows with
  | nil => rfl
  | cons u t ih =>
    simp only [updateUser, List.map_cons] at ih ⊢
    simp only [ne_eq, decide_not] at ih
    by_cases h : u.id = id
    · simp [List.filter_cons, h, ih]
    · simp [List.filter_cons, h, ih]

/-- C8 (amended): if `get(id)` returns the record `old`, then after a
successful `update(id, fields)` at clock value `now`, `get(id)` returns a record
with the given name, email, phone and position, with `updated_at = now`, and
with the id and `created_at` of `old`; hence `updated_at` is strictly greater
than before whenever `now` is strictly later than the previous value.  The
records with another id are unchanged, and no row is added or removed. -/
theorem update_then_get (id : Nat) (f : Fields) (now : Nat) (s : Store) (old : User)
    (hold : getUser id none s = { status := 200, body := Body.user old }) :
    ∃ r, getUser id none (putUser id f now none none s).1 = { status := 200, body := Body.user r }
      ∧ (putUser id f now none none s).2.status = 200
      ∧ r.name = f.name ∧ r.email = f.email ∧ r.phone = f.phone ∧ r.position = f.position
      ∧ r.updated_at = some now
      ∧ (∀ t, old.updated_at = some t → t < now → ∃ t2, r.updated_at = some t2 ∧ t < t2)
      ∧ r.id = id ∧ r.id = old.id ∧ r.created_at = old.created_at
      ∧ (putUser id f now none none s).1.rows.filter (fun u => u.id ≠ id)
          = s.rows.filter (fun u => u.id ≠ id)
      ∧ (putUser id f now none none s).1.rows.map User.id = s.rows.map User.id := by
  obtain ⟨rows, n⟩ := s
  have hput : (putUser id f now none none { rows := rows, nextId := n }).1
      = updateUser id f now { rows := rows, nextId := n } := rfl
  have hstat : (putUser id f now none none { rows := rows, nextId := n }).2.status = 200 := rfl
  rw [hput, hstat]
  have hsel := selectById_updateUser id f now rows n
  simp only [getUser] at hold ⊢
  cases hs : selectById id { rows := rows, nextId := n } with
  | nil => rw [hs] at hold; simp at hold
  | cons u t =>
    rw [hs] at hold hsel
    simp only [Response.mk.injEq, Body.user.injEq, true_and] at hold
    subst hold
    have hu : u ∈ selectById id { rows := rows, nextId := n } := by
      rw [hs]; exact List.mem_cons_self _ _
    have huid : u.id = id := by
      simpa [selectById] using (List.mem_filter.1 hu).2
    rw [hsel]
    refine ⟨{ u with name := f.name, email := f.email, phone := f.phone,
                     position := f.position, updated_at := some now },
      rfl, trivial, rfl, rfl, rfl, rfl, rfl, ?_, huid, rfl, rfl,
      updateUser_others id f now rows n, ?_⟩
    · intro t _ ht
      exact ⟨now, rfl, ht⟩
    · simp only [updateUser, List.map_map]
      apply List.map_congr_left
      intro a _
      by_cases h : a.id = id <;> simp [h]

/-- Witness of C8 (amended): updating record 1 of `carlStore` at clock value 8. -/
theorem update_then_get_witness :
    getUser 1 none carlStore
        = { status := 200,
            body := Body.user { id := 1, name := some "Carl", email := some "carl@x.com",
                                phone := none, position := none, created_at := 3,
                                updated_at := some 7 } }
    ∧ ∃ r, getUser 1 none (putUser 1 annFields 8 none none carlStore).1
              = { status := 200, body := Body.user r }
      ∧ (putUser 1 annFields 8 none none carlStore).2.status = 200
      ∧ r.name = annFields.name ∧ r.email = annFields.email ∧ r.phone = annFields.phone
      ∧ r.position = annFields.position
      ∧ r.updated_at = some 8
      ∧ (∀ t, (some 7 : Option Nat) = some t → t < 8 → ∃ t2, r.updated_at = some t2 ∧ t < t2)
      ∧ r.id = 1 ∧ r.id = 1 ∧ r.created_at = 3
      ∧ (putUser 1 annFields 8 none none carlStore).1.rows.filter (fun u => u.id ≠ 1)
          = carlStore.rows.filter (fun u => u.id ≠ 1)
      ∧ (putUser 1 annFields 8 none none carlStore).1.rows.map User.id
          = carlStore.rows.map User.id :=
  ⟨by decide, update_then_get 1 annFields 8 carlStore
    { id := 1, name := some "Carl", email := some "carl@x.com", phone := none, position := none,
      created_at := 3, updated_at := some 7 } (by decide)⟩

/-- C8 (counterexample): record 1 of `carlStore` has `updated_at = 7`; an
update at clock value 7 succeeds, and `get(1)` afterwards still shows
`updated_at = 7`, which is not strictly greater than before. -/
theorem update_same_clock_keeps_updated_at :
    getUser 1 none carlStore
        = { status := 200,
            body := Body.user { id := 1, name := some "Carl", email := some "carl@x.com",
                                phone := none, position := none, created_at := 3,
                                updated_at := some 7 } }
    ∧ (putUser 1 annFields 7 none none carlStore).2.status = 200
    ∧ getUser 1 none (putUser 1 annFields 7 none none carlStore).1
        = { status := 200,
            body := Body.user { id := 1, name := some "Ann", email := some "ann@x.com",
                                phone := none, position := none, created_at := 3,
                                updated_at := some 7 } } := by
  refine ⟨by decide, by decide, by decide⟩

/-! ## Update of a missing id -/

/-- C9: when no row has the given id and both storage queries succeed, the
update handler leaves the store as it was and answers with status 200 and the
body that `GET /api/users` gave before the call. -/
theorem update_missing_id_is_noop (id : Nat) (f : Fields) (now : Nat) (s : Store)
    (hmiss : ∀ u ∈ s.rows, u.id ≠ id) :
    putUser id f now none none s = (s, getUsers none s)
      ∧ getUsers none s = { status := 200, body := Body.users (orderByCreatedAtDesc s.rows) } := by
  have hrows : (updateUser id f now s) = s := by
    obtain ⟨rows, n⟩ := s
    simp only [updateUser, Store.mk.injEq, and_true]
    conv_rhs => rw [← List.map_id rows]
    apply List.map_congr_left
    intro u hu
    simp [hmiss u hu]
  refine ⟨?_, rfl⟩
  simp only [putUser, hrows, getUsers, getAllUsers]

/-- Witness of C9: updating id 9999 in `bobStore`. -/
theorem update_missing_id_is_noop_witness :
    (∀ u ∈ bobStore.rows, u.id ≠ 9999)
    ∧ putUser 9999 annFields 12 none none bobStore = (bobStore, getUsers none bobStore)
    ∧ getUsers none bobStore
        = { status := 200, body := Body.users (orderByCreatedAtDesc bobStore.rows) } :=
  ⟨by decide, update_missing_id_is_noop 9999 annFields 12 bobStore (by decide)⟩

/-! ## Submit -/

/-- C2 (amended): when the form passes validation (name and email are not
blank after trimming) and `editingId` is `null` or a non-zero id, submit issues
`update(editingId, form)` if `editingId` is set and `create(form)` otherwise;
if that request succeeds with collection `R`, the resulting state has
`users = R`, `editingId = null`, the cleared form, `searchTerm = ''`,
`loading = false` and the success notification. -/
theorem submit_success (st : ClientState) (axios : Request → Reply)
    (R : List (Option User))
    (hvalid : formRejected st.formData = false)
    (hid : st.editingId ≠ some 0)
    (hok : axios (match st.editingId with
                  | some id => Request.put id st.formData
                  | none => Request.post st.formData) = .ok R) :
    (handleSubmitStart st).2
        = some (match st.editingId with
                | some id => Request.put id st.formData
                | none => Request.post st.formData)
      ∧ (handleSubmitStart st).1 = { st with loading := true }
      ∧ handleSubmit st axios
        = { users := R, formData := emptyForm, editingId := none, loading := false,
            notification :=
              showNotification (if st.editingId.isSome then "User updated successfully!"
                                else "User created successfully!") "success",
            searchTerm := "" } := by
  obtain ⟨users, fd, eid, ld, nt, term⟩ := st
  simp only at hvalid hid hok
  cases eid with
  | none =>
    simp only [handleSubmitStart, handleSubmit, hvalid] at hok ⊢
    simp [hok, handleSubmitDone, truthyId]
  | some id =>
    have hne : id ≠ 0 := fun h => hid (by rw [h])
    simp only [handleSubmitStart, handleSubmit, hvalid] at hok ⊢
    simp [hok, handleSubmitDone, truthyId, hne]

/-- Witness of C2 (amended): submitting Ann's form against a network that
answers every request with the one-record collection. -/
theorem submit_success_witness :
    formRejected annFormState.formData = false
    ∧ (handleSubmitStart annFormState).2 = some (Request.post annFormState.formData)
    ∧ handleSubmit annFormState (fun _ => .ok [some bobRow])
        = { users := [some bobRow], formData := emptyForm, editingId := none, loading := false,
            notification := showNotification "User created successfully!" "success",
            searchTerm := "" } :=
  have h := submit_success annFormState (fun _ => .ok [some bobRow]) [some bobRow]
    (by decide) (by decide) rfl
  ⟨by decide, h.1, h.2.2⟩

/-- C2 (counterexample): with the empty form submit issues no request and
keeps the collection, although the network would answer with a collection;
and with a valid form and `editingId = 0` submit issues a create, not
`update(0, form)`, and afterwards `editingId` is still `0`. -/
theorem submit_blank_form_sends_nothing :
    (handleSubmitStart initialState).2 = none
    ∧ handleSubmit initialState (fun _ => .ok [some bobRow])
        = { initialState with
            notification := showNotification "Name and email are required" "error" }
    ∧ (handleSubmitStart { annFormState with editingId := some 0 }).2
        = some (Request.post annFormState.formData)
    ∧ (handleSubmit { annFormState with editingId := some 0 }
          (fun _ => .ok [some bobRow])).editingId = some 0 := by
  refine ⟨by decide, by decide, by decide, by decide⟩

/-! ## Failed requests -/

/-- C3: when the request issued by submit fails, and when the delete request
of a confirmed remove fails, the resulting state is the state before the call
with only the notification replaced by the error message and `loading` false:
collection, `editingId`, form and `searchTerm` are as before. -/
theorem failed_request_keeps_state (st : ClientState) (axios : Request → Reply) :
    (∀ req e, (handleSubmitStart st).2 = some req → axios req = .error e →
        handleSubmit st axios
          = { st with notification := showNotification (submitErrorMessage e.status) "error",
                      loading := false })
      ∧ (∀ id e, axios (Request.delete id) = .error e →
          (handleDeleteStart st id true).2 = some (Request.delete id)
          ∧ handleDelete st id true axios
            = { st with notification := showNotification (deleteErrorMessage e.status) "error",
                        loading := false }) := by
  refine ⟨?_, ?_⟩
  · intro req e hreq hfail
    unfold handleSubmit
    cases hs : handleSubmitStart st with
    | mk st1 r =>
      rw [hs] at hreq
      simp only at hreq
      subst hreq
      simp only [hfail, handleSubmitDone]
      unfold handleSubmitStart at hs
      split at hs
      · simp at hs
      · simp only [Prod.mk.injEq] at hs
        rw [← hs.1]
  · intro id e hdel
    refine ⟨rfl, ?_⟩
    simp only [handleDelete, handleDeleteStart, if_true, hdel, handleDeleteDone]

/-- Witness of C3: Ann's form is submitted and record 1 removed against a
network that answers every request with status 500. -/
theorem failed_request_keeps_state_witness :
    (handleSubmitStart annFormState).2 = some (Request.post annFormState.formData)
    ∧ handleSubmit annFormState (fun _ => .error { status := some 500 })
        = { annFormState with
            notification := showNotification "Failed to save user" "error", loading := false }
    ∧ handleDelete annFormState 1 true (fun _ => .error { status := some 500 })
        = { annFormState with
            notification := showNotification "Failed to delete user" "error",
            loading := false } :=
  have h := failed_request_keeps_state annFormState (fun _ => .error { status := some 500 })
  ⟨by decide, h.1 (Request.post annFormState.formData) { status := some 500 } (by decide) rfl,
    (h.2 1 { status := some 500 } rfl).2⟩

/-! ## Remove -/

/-- C4: when a confirmed `remove(id)` succeeds with collection `R`, the
resulting state has `users = R`; if `editingId` was `id`, `editingId` becomes
`null` and the form is cleared; otherwise `editingId` and the form are
unchanged. -/
theorem remove_success (st : ClientState) (id : Nat) (axios : Request → Reply)
    (R : List (Option User))
    (hok : axios (Request.delete id) = .ok R) :
    (handleDeleteStart st id true).2 = some (Request.delete id)
      ∧ (handleDelete st id true axios).users = R
      ∧ (st.editingId = some id →
          (handleDelete st id true axios).editingId = none
          ∧ (handleDelete st id true axios).formData = emptyForm)
      ∧ (st.editingId ≠ some id →
          (handleDelete st id true axios).editingId = st.editingId
          ∧ (handleDelete st id true axios).formData = st.formData) := by
  refine ⟨rfl, ?_, ?_, ?_⟩
  · simp only [handleDelete, handleDeleteStart, if_true, hok, handleDeleteDone]
    split <;> rfl
  · intro h
    simp [handleDelete, handleDeleteStart, hok, handleDeleteDone, h, handleCancel]
  · intro h
    simp [handleDelete, handleDeleteStart, hok, handleDeleteDone, h]

/-- Witness of C4: record 1 is removed while it is being edited, and the
server answers with the empty collection. -/
theorem remove_success_witness :
    editingBobState.editingId = some 1
    ∧ editingBobState.formData.name = "Bob"
    ∧ (handleDelete editingBobState 1 true (fun _ => .ok [])).users = []
    ∧ (handleDelete editingBobState 1 true (fun _ => .ok [])).editingId = none
    ∧ (handleDelete editingBobState 1 true (fun _ => .ok [])).formData = emptyForm :=
  have h := remove_success editingBobState 1 (fun _ => .ok []) [] rfl
  ⟨by decide, by decide, h.2.1, (h.2.2.1 (by decide)).1, (h.2.2.1 (by decide)).2⟩

/-! ## Filter view -/

theorem startsWith_iff (s t : List Char) : startsWith s t = true ↔ ∃ q, s = t ++ q := by
  induction t generalizing s with
  | nil => simp [startsWith]
  | cons d ds ih =>
    cases s with
    | nil => simp [startsWith]
    | cons c cs =>
      simp only [startsWith, Bool.and_eq_true, beq_iff_eq, ih, List.cons_append,
        List.cons.injEq]
      constructor
      · rintro ⟨h, q, hq⟩
        exact ⟨q, h, hq⟩
      · rintro ⟨q, h, hq⟩
        exact ⟨h, q, hq⟩

theorem includesChars_iff (s t : List Char) :
    includesChars s t = true ↔ ∃ p q, s = p ++ t ++ q := by
  induction s with
  | nil =>
    simp only [includesChars, startsWith_iff]
    constructor
    · rintro ⟨q, hq⟩
      exact ⟨[], q, by simpa using hq⟩
    · rintro ⟨p, q, h⟩
      have h1 : p ++ t ++ q = [] := h.symm
      simp only [List.append_eq_nil] at h1
      exact ⟨[], by simp [h1.1.2]⟩
  | cons c cs ih =>
    simp only [includesChars, Bool.or_eq_true, startsWith_iff, ih]
    constructor
    · rintro (⟨q, hq⟩ | ⟨p, q, hq⟩)
      · exact ⟨[], q, by simpa using hq⟩
      · exact ⟨c :: p, q, by simp [hq]⟩
    · rintro ⟨p, q, h⟩
      cases p with
      | nil => exact Or.inl ⟨q, by simpa using h⟩
      | cons a p =>
        simp only [List.cons_append, List.cons.injEq] at h
        exact Or.inr ⟨p, q, h.2⟩

theorem includes_iff (s t : String) : includes s t = true ↔ IsSubstring t s :=
  includesChars_iff s.data t.data

theorem toLowerCase_data_ne_nil (term : String) (h : term ≠ "") :
    (toLowerCase term).data ≠ [] := by
  obtain ⟨cs⟩ := term
  cases cs with
  | nil => exact absurd rfl h
  | cons c cs =>
    intro hnil
    have hlen := congrArg List.length hnil
    simp only [toLowerCase, lowerChars, lowerChar, List.length_append, List.length_nil] at hlen
    split at hlen
    · simp at hlen
    · split at hlen <;> simp at hlen

/-- For a non-empty term one disjunct of the filter test holds exactly when
the field has a value of which the lower-cased term is a substring. -/
theorem fieldMatches_iff (v : Option String) (term : String) (h : term ≠ "") :
    fieldMatches v (toLowerCase term) = true
      ↔ ∃ x, v = some x ∧ IsSubstring (toLowerCase term) (toLowerCase x) := by
  cases v with
  | none => simp [fieldMatches]
  | some x =>
    simp only [fieldMatches, Bool.and_eq_true, includes_iff, Option.some.injEq, exists_eq_left']
    constructor
    · exact fun hx => hx.2
    · intro hx
      refine ⟨?_, hx⟩
      obtain ⟨p, q, hpq⟩ := hx
      obtain ⟨cs⟩ := x
      cases cs with
      | nil =>
        exfalso
        have h1 : p ++ (toLowerCase term).data ++ q = [] := hpq.symm
        simp only [List.append_eq_nil] at h1
        exact toLowerCase_data_ne_nil term h h1.1.2
      | cons c cs => rfl

theorem userMatches_iff (term : String) (h : term ≠ "") (e : Option User) :
    userMatches term e = true ↔ ∃ u, e = some u ∧ specMatches term u := by
  cases e with
  | none => simp [userMatches]
  | some u =>
    simp only [userMatches, Bool.or_eq_true, fieldMatches_iff _ term h, Option.some.injEq,
      exists_eq_left', specMatches]
    constructor
    · rintro (((⟨x, hx, hs⟩ | ⟨x, hx, hs⟩) | ⟨x, hx, hs⟩) | ⟨x, hx, hs⟩)
      · exact ⟨x, Or.inl hx, hs⟩
      · exact ⟨x, Or.inr (Or.inl hx), hs⟩
      · exact ⟨x, Or.inr (Or.inr (Or.inr hx)), hs⟩
      · exact ⟨x, Or.inr (Or.inr (Or.inl hx)), hs⟩
    · rintro ⟨x, (hx | hx | hx | hx), hs⟩
      · exact Or.inl (Or.inl (Or.inl ⟨x, hx, hs⟩))
      · exact Or.inl (Or.inl (Or.inr ⟨x, hx, hs⟩))
      · exact Or.inr ⟨x, hx, hs⟩
      · exact Or.inl (Or.inr ⟨x, hx, hs⟩)

/-- A term that lower-cases to the same string gives the same filter result. -/
theorem filteredUsers_term_case (users : List (Option User)) (term term2 : String)
    (h : toLowerCase term2 = toLowerCase term) :
    filteredUsers users term2 = filteredUsers users term := by
  have hm : userMatches term2 = userMatches term := by
    funext e
    cases e with
    | none => rfl
    | some u => simp only [userMatches, h]
  simp only [filteredUsers, hm]

/-- The simple lower-case mapping sends each of the letters A to Z to its
small letter. -/
theorem lookupLower_capital (n : Nat) (h1 : 0x41 ≤ n) (h2 : n ≤ 0x5A) :
    lookupLower lowerCaseTable n = n + 0x20 := by
  unfold lowerCaseTable
  rw [lookupLower, if_neg (by omega), if_pos (by simp [h2, Nat.mod_one])]
  omega

/-- C6: for a non-empty term, `filteredUsers` is the collection filtered, in
its original order, by a test that holds exactly for the records in which the
lower-cased term is a substring of the lower-cased value of at least one of
name, email, phone, position; the result is a sublist of the collection, and
it is the same for every term with the same lower-casing. -/
theorem filter_keeps_exactly_matching (users : List (Option User)) (term : String)
    (hterm : term ≠ "") :
    ∃ keep : Option User → Bool,
      (∀ e, keep e = true ↔ ∃ u, e = some u ∧ specMatches term u)
      ∧ filteredUsers users term = users.filter keep
      ∧ (filteredUsers users term).Sublist users
      ∧ ∀ term2, toLowerCase term2 = toLowerCase term →
          filteredUsers users term2 = filteredUsers users term :=
  ⟨userMatches term, userMatches_iff term hterm, rfl, List.filter_sublist _,
    fun term2 h => filteredUsers_term_case users term term2 h⟩

/-- Witness of C6: the collection Ann, Bob, Änne filtered with the term "ann"
keeps Ann alone, also when the term is written "aNN"; with the term "änn" it
keeps Änne, whose name is stored in capitals. -/
theorem filter_keeps_exactly_matching_witness :
    "ann" ≠ ""
    ∧ toLowerCase "Ann" = "ann" ∧ toLowerCase "ÄNNE" = "änne"
    ∧ filteredUsers [some annRow, some bobRow, some aenneRow] "ann" = [some annRow]
    ∧ filteredUsers [some annRow, some bobRow, some aenneRow] "aNN" = [some annRow]
    ∧ filteredUsers [some annRow, some bobRow, some aenneRow] "änn" = [some aenneRow]
    ∧ ∃ keep : Option User → Bool,
      (∀ e, keep e = true ↔ ∃ u, e = some u ∧ specMatches "ann" u)
      ∧ filteredUsers [some annRow, some bobRow, some aenneRow] "ann"
          = [some annRow, some bobRow, some aenneRow].filter keep
      ∧ (filteredUsers [some annRow, some bobRow, some aenneRow] "ann").Sublist
          [some annRow, some bobRow, some aenneRow]
      ∧ ∀ term2, toLowerCase term2 = toLowerCase "ann" →
          filteredUsers [some annRow, some bobRow, some aenneRow] term2
            = filteredUsers [some annRow, some bobRow, some aenneRow] "ann" :=
  ⟨by decide, by decide, by decide, by decide, by decide, by decide,
    filter_keeps_exactly_matching [some annRow, some bobRow, some aenneRow] "ann" (by decide)⟩

/-- C5 (failing input): with the empty term, the one-record collection holding
`blankRow` is filtered to the empty list; the same happens to a record whose
four fields are `null`. -/
theorem filter_empty_term_drops_blank_record :
    filteredUsers [some blankRow] "" = []
    ∧ filteredUsers [some { blankRow with name := none, email := none, phone := none,
                                          position := none }] "" = []
    ∧ filteredUsers [some bobRow, some blankRow, some annRow] ""
        = [some bobRow, some annRow] := by
  refine ⟨by decide, by decide, by decide⟩

/-- With the empty term every record that has a non-empty name, email, phone
or position is kept: on a collection of such records the filter is the
identity. -/
theorem filter_empty_term_identity (users : List (Option User))
    (h : ∀ e ∈ users, ∃ u, e = some u ∧ ∃ v, v ≠ "" ∧
      (u.name = some v ∨ u.email = some v ∨ u.phone = some v ∨ u.position = some v)) :
    filteredUsers users "" = users := by
  have hfield : ∀ v : String, v ≠ "" → fieldMatches (some v) (toLowerCase "") = true := by
    intro v hv
    obtain ⟨cs⟩ := v
    cases cs with
    | nil => exact absurd rfl hv
    | cons c cs =>
      simp only [fieldMatches, Bool.and_eq_true, includes_iff]
      exact ⟨rfl, ⟨[], (toLowerCase ⟨c :: cs⟩).data, rfl⟩⟩
  unfold filteredUsers
  rw [List.filter_eq_self]
  intro e he
  obtain ⟨u, rfl, v, hv, hu⟩ := h e he
  simp only [userMatches, Bool.or_eq_true]
  rcases hu with hu | hu | hu | hu <;> rw [hu] <;> simp [hfield v hv]

/-! ## Pending guard -/

theorem handleSubmitDone_loading (st : ClientState) (eid : Option Nat) (r : Reply) :
    (handleSubmitDone st eid r).loading = false := rfl

theorem handleDeleteDone_loading (st : ClientState) (eid : Option Nat) (id : Nat) (r : Reply) :
    (handleDeleteDone st eid id r).loading = false := rfl

theorem fetchUsersDone_loading (st : ClientState) (r : Reply) :
    (fetchUsersDone st r).loading = false := rfl

theorem handleSubmitStart_request (st st1 : ClientState) (req : Request)
    (h : handleSubmitStart st = (st1, some req)) : st1.loading = true := by
  unfold handleSubmitStart at h
  split at h
  · simp at h
  · simp only [Prod.mk.injEq] at h
    rw [← h.1]

theorem handleSubmitStart_no_request (st st1 : ClientState)
    (h : handleSubmitStart st = (st1, none)) : st1.loading = st.loading := by
  unfold handleSubmitStart at h
  split at h
  · simp only [Prod.mk.injEq] at h
    rw [← h.1]
  · simp at h

theorem inv_initialApp : Inv initialApp := by
  simp [Inv, initialApp]

theorem inv_of_same (a b : App) (hinv : Inv a) (hm : b.mounted = a.mounted)
    (hf : b.inFlight = a.inFlight) (hl : b.ui.loading = a.ui.loading) : Inv b := by
  unfold Inv at hinv ⊢
  rw [hm, hf, hl]
  exact hinv

theorem inv_idle (a : App) (hinv : Inv a) (h : controlsEnabled a = true) : a.inFlight = [] := by
  simp only [controlsEnabled, Bool.and_eq_true, Bool.not_eq_true'] at h
  by_contra hne
  have := hinv.2.1 hne
  rw [h.2] at this
  exact absurd this (by decide)

theorem inv_start (a : App) (st : ClientState) (p : Pending) (hinv : Inv a)
    (h : controlsEnabled a = true) (hl : st.loading = true) :
    Inv { a with ui := st, inFlight := a.inFlight ++ [p] } := by
  have hm : a.mounted = true := by
    simp only [controlsEnabled, Bool.and_eq_true] at h
    exact h.1
  rw [inv_idle a hinv h]
  refine ⟨by simp, fun _ => hl, fun hf => ?_⟩
  simp only at hf
  rw [hm] at hf
  exact absurd hf (by decide)

theorem eraseIdx_of_short (l : List Pending) (i : Nat) (p : Pending) (hlen : l.length ≤ 1)
    (h : l[i]? = some p) : l.eraseIdx i = [] := by
  match l, i with
  | [], _ => simp at h
  | [_], 0 => rfl
  | [_], _ + 1 => simp at h
  | _ :: _ :: _, _ => simp at hlen

/-- Every event that can occur preserves the invariant. -/
theorem step_inv (e : Event) (a b : App) (hinv : Inv a) (h : step e a = some b) : Inv b := by
  cases e with
  | mount =>
    simp only [step, fetchUsersStart] at h
    split at h
    · simp at h
    · rename_i hm
      simp only [Option.some.injEq] at h
      subst h
      have hnil := hinv.2.2 (by simpa using hm)
      simp [Inv, hnil]
  | changeName v | changeEmail v | changePhone v | changePosition v | changeSearch v =>
    simp only [step] at h
    split at h
    · simp only [Option.some.injEq] at h
      subst h
      exact inv_of_same _ _ hinv rfl rfl rfl
    · simp at h
  | submit =>
    simp only [step] at h
    split at h
    · rename_i hc
      split at h
      · rename_i st hs
        simp only [Option.some.injEq] at h
        subst h
        exact inv_of_same _ _ hinv rfl rfl (handleSubmitStart_no_request _ _ hs)
      · rename_i st req hs
        simp only [Option.some.injEq] at h
        subst h
        exact inv_start a st _ hinv hc (handleSubmitStart_request _ _ _ hs)
    · simp at h
  | clickCancel =>
    simp only [step] at h
    split at h
    · simp only [Option.some.injEq] at h
      subst h
      exact inv_of_same _ _ hinv rfl rfl rfl
    · simp at h
  | clickEdit user =>
    simp only [step] at h
    split at h
    · simp only [Option.some.injEq] at h
      subst h
      exact inv_of_same _ _ hinv rfl rfl rfl
    · simp at h
  | clickDelete user confirmed =>
    simp only [step] at h
    split at h
    · rename_i hc
      simp only [Bool.and_eq_true] at hc
      cases confirmed with
      | false =>
        simp only [handleDeleteStart, Bool.false_eq_true, if_false, Option.some.injEq] at h
        subst h
        exact inv_of_same _ _ hinv rfl rfl rfl
      | true =>
        simp only [handleDeleteStart, if_true, Option.some.injEq] at h
        subst h
        exact inv_start a _ _ hinv hc.1 rfl
    · simp at h
  | closeNotification =>
    simp only [step] at h
    split at h
    · simp only [Option.some.injEq] at h
      subst h
      exact inv_of_same _ _ hinv rfl rfl rfl
    · simp at h
  | notificationTimeout =>
    simp only [step] at h
    split at h
    · simp only [Option.some.injEq] at h
      subst h
      exact inv_of_same _ _ hinv rfl rfl rfl
    · simp at h
  | reply i r =>
    simp only [step] at h
    split at h
    · simp at h
    · rename_i p hp
      simp only [Option.some.injEq] at h
      subst h
      have he := eraseIdx_of_short a.inFlight i p hinv.1 hp
      refine ⟨by simp [he], fun hne => absurd he hne, fun _ => he⟩

/-- Every state reached from the initial component satisfies the invariant. -/
theorem run_inv (evs : List Event) (a b : App) (hinv : Inv a) (h : run evs a = some b) :
    Inv b := by
  induction evs generalizing a with
  | nil =>
    simp only [run, Option.some.injEq] at h
    subst h
    exact hinv
  | cons e es ih =>
    simp only [run] at h
    cases hs : step e a with
    | none => rw [hs] at h; simp at h
    | some c =>
      rw [hs] at h
      exact ih c (step_inv e a c hinv hs) h

/-- While `loading` is true, only a settling request can turn it off. -/
theorem loading_cleared_only_by_reply (e : Event) (a b : App) (h : step e a = some b)
    (hl : a.ui.loading = true) (hb : b.ui.loading = false) : ∃ i r, e = Event.reply i r := by
  cases e with
  | reply i r => exact ⟨i, r, rfl⟩
  | mount =>
    simp only [step, fetchUsersStart] at h
    split at h
    · simp at h
    · simp only [Option.some.injEq] at h
      subst h
      simp at hb
  | closeNotification | notificationTimeout =>
    simp only [step] at h
    split at h
    · simp only [Option.some.injEq] at h
      subst h
      simp only at hb
      rw [hl] at hb
      exact absurd hb (by decide)
    · simp at h
  | changeName v | changeEmail v | changePhone v | changePosition v | changeSearch v
  | submit | clickCancel | clickEdit u | clickDelete u c =>
    simp [step, controlsEnabled, hl] at h

/-- C10: in every state reached from the initial component, at most one
mutating request is in flight; while a mutating request is in flight `loading`
is true; while `loading` is true neither submit nor remove can occur; an
event that leaves a request in flight leaves `loading` true; and `loading`
goes from true to false only through the settling (success or failure) of the
request in flight, after which none is in flight. -/
theorem single_mutation_in_flight (evs : List Event) (a : App)
    (h : run evs initialApp = some a) :
    (a.inFlight.filter (fun p => isMutating p.req)).length ≤ 1
      ∧ (∀ p ∈ a.inFlight, isMutating p.req = true → a.ui.loading = true)
      ∧ (a.ui.loading = true →
          step Event.submit a = none ∧ ∀ u c, step (Event.clickDelete u c) a = none)
      ∧ (∀ e b, step e a = some b → b.inFlight ≠ [] → b.ui.loading = true)
      ∧ (∀ e b, step e a = some b → a.ui.loading = true → b.ui.loading = false →
          (∃ i r, e = Event.reply i r) ∧ b.inFlight = []) := by
  have hinv := run_inv evs initialApp a inv_initialApp h
  refine ⟨?_, ?_, ?_, ?_, ?_⟩
  · exact Nat.le_trans (List.length_filter_le _ _) hinv.1
  · intro p hp _
    exact hinv.2.1 (List.ne_nil_of_mem hp)
  · intro hl
    constructor
    · simp [step, controlsEnabled, hl]
    · intro u c
      simp [step, controlsEnabled, hl]
  · intro e b hs hne
    exact (step_inv e a b hinv hs).2.1 hne
  · intro e b hs hl hb
    refine ⟨loading_cleared_only_by_reply e a b hs hl hb, ?_⟩
    by_contra hne
    have := (step_inv e a b hinv hs).2.1 hne
    rw [hb] at this
    exact absurd this (by decide)

/-- Witness of C10: the state reached by `annSession`. -/
theorem single_mutation_in_flight_witness :
    run annSession initialApp = some annSubmitted
    ∧ (annSubmitted.inFlight.filter (fun p => isMutating p.req)).length ≤ 1
    ∧ (∀ p ∈ annSubmitted.inFlight, isMutating p.req = true → annSubmitted.ui.loading = true)
    ∧ (annSubmitted.ui.loading = true →
        step Event.submit annSubmitted = none
        ∧ ∀ u c, step (Event.clickDelete u c) annSubmitted = none) :=
  have h := single_mutation_in_flight annSession annSubmitted (by decide)
  ⟨by decide, h.1, h.2.1, h.2.2.1⟩

end Crud
